import Mathlib

/-!
Verification of the controller-pak entry directory manager (`LibN64::LibMemPak`
in `src/include/LibN64.h`) of the libdragon C++ wrapper.

The wrapper's own logic (the class `LibMemPak`) is translated definition by
definition from the source.  The storage medium itself is the wrapped vendor
SDK, external to the repository; it is modelled from the specification's
collaborator contract (spec section 6): a medium has a presence flag, a
directory checksum flag, sixteen block-addressed slots and a free-block count,
and the SDK calls (`get_mempak_entry`, `read_mempak_entry_data`,
`write_mempak_entry_data`, `delete_mempak_entry`, `validate_mempak`,
`get_mempak_free_space`, `identify_accessory`) are total functions over that
state.  All `LibMemPak` methods take the medium explicitly instead of going
through the controller port number.
-/

set_option linter.unusedVariables false

namespace LibN64

/-- `MEMPAK_MAX_ENTRIES` from the header: 16 directory slots. -/
def MEMPAK_MAX_ENTRIES : Nat := 16

/-- Vendor constant `MEMPAK_BLOCK_SIZE`: bytes per storage block (256). -/
def MEMPAK_BLOCK_SIZE : Nat := 256

/-- The vendor SDK's `entry_structure_t`: one directory record as handed to the
wrapper.  `entry_id` is the slot the record was read from. -/
structure EntryStructure where
  valid : Bool
  name : String
  blocks : Nat
  region : Nat
  entry_id : Nat
deriving Repr, DecidableEq

/-- Modelled from the spec: one physical directory slot on the storage medium,
holding the validity flag, the metadata fields and the payload bytes
(spec section 3, Entry; section 6, collaborator contract). -/
structure Slot where
  valid : Bool
  name : String
  blocks : Nat
  region : Nat
  payload : List Nat
deriving Repr, DecidableEq

/-- Modelled from the spec: the state of the storage medium attached to the
port — presence, directory-checksum validity, the slots and the free block
count (spec sections 3 and 6). -/
structure Medium where
  inserted : Bool
  checksumOk : Bool
  slots : List Slot
  freeBlocks : Nat
deriving Repr, DecidableEq

/-- The well-defined "not present" record the query layer returns when the
medium is absent or the slot does not exist (spec section 4.1, Refresh). -/
def blankEntry (spot : Nat) : EntryStructure :=
  { valid := false, name := "", blocks := 0, region := 0, entry_id := spot }

/-- SDK `get_mempak_entry`: read one directory slot into a record. -/
def get_mempak_entry (m : Medium) (spot : Nat) : EntryStructure :=
  if m.inserted then
    match m.slots[spot]? with
    | some s => { valid := s.valid, name := s.name, blocks := s.blocks,
                  region := s.region, entry_id := spot }
    | none => blankEntry spot
  else blankEntry spot

/-- SDK `read_mempak_entry_data`: read `blocks * MEMPAK_BLOCK_SIZE` payload
bytes of the record's slot. -/
def read_mempak_entry_data (m : Medium) (e : EntryStructure) : List Nat :=
  match m.slots[e.entry_id]? with
  | some s => s.payload.take (e.blocks * MEMPAK_BLOCK_SIZE)
  | none => []

/-- SDK `write_mempak_entry_data`: store the record's metadata and
`blocks * MEMPAK_BLOCK_SIZE` payload bytes into the record's slot and mark it
live. -/
def write_mempak_entry_data (m : Medium) (e : EntryStructure) (data : List Nat) :
    Medium :=
  { m with
    slots := m.slots.set e.entry_id
      { valid := true, name := e.name, blocks := e.blocks, region := e.region,
        payload := data.take (e.blocks * MEMPAK_BLOCK_SIZE) },
    freeBlocks := m.freeBlocks - e.blocks }

/-- SDK `delete_mempak_entry`: erase the record's slot (mark it not live). -/
def delete_mempak_entry (m : Medium) (e : EntryStructure) : Medium :=
  { m with
    slots :=
      match m.slots[e.entry_id]? with
      | some s => m.slots.set e.entry_id { s with valid := false }
      | none => m.slots,
    freeBlocks := m.freeBlocks + e.blocks }

/-- SDK `get_mempak_free_space`. -/
def get_mempak_free_space (m : Medium) : Nat := m.freeBlocks

/-- SDK `validate_mempak`: 0 when the directory checksum is good. -/
def validate_mempak (m : Medium) : Int := if m.checksumOk then 0 else -3

/-- SDK accessory kind for a memory pak. -/
def ACCESSORY_MEMPAK : Nat := 1

/-- SDK `identify_accessory` at the wrapper's port. -/
def identify_accessory (m : Medium) : Nat :=
  if m.inserted then ACCESSORY_MEMPAK else 0

/-- The `LibMemPak` object state: controller id, the cached valid-entry
counter, the cached free-block count, the cached entry vector and the default
entry file name.  The scratch pointer member `pakEntryData` only carries the
buffer `ReadMemPakEntry` returns and is represented by that return value. -/
structure LibMemPak where
  pakControllerID : Nat
  pakValidEntries : Int
  pakBlocksFree : Nat
  pakEntries : List EntryStructure
  pakFileName : String
deriving Repr, DecidableEq

namespace LibMemPak

/-- `MemPakInserted`: the accessory at the port identifies as a memory pak. -/
def MemPakInserted (m : Medium) : Bool :=
  identify_accessory m == ACCESSORY_MEMPAK

/-- `IsValid`: when the pak is inserted, true iff `validate_mempak` returns 0.
When the pak is not inserted the source falls off the end of the function
without a return statement, modelled as `none`. -/
def IsValid (m : Medium) : Option Bool :=
  if MemPakInserted m then some (validate_mempak m == 0) else none

/-- The slot loop of `_ReadPakEntries`: for each spot, `get_mempak_entry` into
a temporary, `push_back` it onto the cached vector, and increment
`pakValidEntries` when it is valid. -/
def readLoop (m : Medium) : List Nat → LibMemPak → LibMemPak
  | [], p => p
  | spot :: rest, p =>
    let tmpEntry := get_mempak_entry m spot
    readLoop m rest
      { p with
        pakEntries := p.pakEntries ++ [tmpEntry],
        pakValidEntries :=
          if tmpEntry.valid then p.pakValidEntries + 1 else p.pakValidEntries }

/-- `_ReadPakEntries`.  The source's guard is
`if(!pakEntries.empty()) pakEntries.empty();` — it calls the const query
`empty()` and discards the result, so the previously cached records are NOT
removed; the loop then appends sixteen fresh records and bumps the counter,
and the free-block count is re-read from the medium. -/
def _ReadPakEntries (p : LibMemPak) (m : Medium) : LibMemPak :=
  let p1 := readLoop m (List.range MEMPAK_MAX_ENTRIES) p
  { p1 with pakBlocksFree := get_mempak_free_space m }

/-- The constructor `LibMemPak(entryfilename, controller)`: the members
`pakValidEntries` and `pakBlocksFree` are not in the initializer list and are
never assigned before `_ReadPakEntries` runs, so they start at indeterminate
values, taken here as parameters.  The cached vector starts empty. -/
def construct (entryfilename : String) (controller : Nat)
    (indetValidEntries : Int) (indetBlocksFree : Nat) (m : Medium) : LibMemPak :=
  _ReadPakEntries
    { pakControllerID := controller, pakValidEntries := indetValidEntries,
      pakBlocksFree := indetBlocksFree, pakEntries := [],
      pakFileName := entryfilename } m

/-- `ReadMemPakEntry`: gated on `MemPakInserted() && IsValid()` (short-circuit,
so `IsValid` only runs on an inserted pak), fetches the record fresh from the
medium, and returns the freshly read payload buffer when that record is valid;
every other path returns `nullptr`, modelled as `none`.  The method reads only
the medium, never the cached vector. -/
def ReadMemPakEntry (m : Medium) (entryID : Nat) : Option (List Nat) :=
  if MemPakInserted m ∧ IsValid m = some true then
    let tmp := get_mempak_entry m entryID
    if tmp.valid then some (read_mempak_entry_data m tmp) else none
  else none

/-- `DeleteMemPakEntry`: `pakEntries.at(entryID)` throws `std::out_of_range`
when the index is outside the cached vector, modelled as `none`; otherwise the
medium entry is erased when the cached record is valid, and `_ReadPakEntries`
runs unconditionally. -/
def DeleteMemPakEntry (p : LibMemPak) (m : Medium) (entryID : Nat) :
    Option (LibMemPak × Medium) :=
  match p.pakEntries[entryID]? with
  | none => none
  | some e =>
    let m1 := if e.valid then delete_mempak_entry m e else m
    some (_ReadPakEntries p m1, m1)

/-- `WriteMemPakEntry`: copies the cached record at the index (`at` throws on
an out-of-range index, modelled as `none`); when the copy is not valid it sets
`name := pakFileName`, `blocks := 1`, `region := 0x45`, writes the payload and
refreshes; when the copy is valid nothing at all happens. -/
def WriteMemPakEntry (p : LibMemPak) (m : Medium) (entryID : Nat)
    (pakdata : List Nat) : Option (LibMemPak × Medium) :=
  match p.pakEntries[entryID]? with
  | none => none
  | some entry =>
    if entry.valid then some (p, m)
    else
      let entry1 := { entry with name := p.pakFileName, blocks := 1, region := 0x45 }
      let m1 := write_mempak_entry_data m entry1 pakdata
      some (_ReadPakEntries p m1, m1)

/-- The range-for of `WriteAnyMemPakEntry`: walk the cached records by
reference; at the first record that is not valid, mutate its metadata in
place, write the payload to the medium and break. -/
def writeAnyLoop (fn : String) (data : List Nat) :
    List EntryStructure → Medium → List EntryStructure × Medium
  | [], m => ([], m)
  | e :: rest, m =>
    if e.valid then
      let r := writeAnyLoop fn data rest m
      (e :: r.1, r.2)
    else
      let e1 := { e with name := fn, blocks := 1, region := 0x45 }
      (e1 :: rest, write_mempak_entry_data m e1 data)

/-- `WriteAnyMemPakEntry`: run the scan loop, then `_ReadPakEntries`
unconditionally. -/
def WriteAnyMemPakEntry (p : LibMemPak) (m : Medium) (data : List Nat) :
    LibMemPak × Medium :=
  let r := writeAnyLoop p.pakFileName data p.pakEntries m
  (_ReadPakEntries { p with pakEntries := r.1 } r.2, r.2)

/-- The scan loop of `FindFirstEntryWith`: return the position of the first
record whose name compares equal (`strcmp == 0`); the source has no return
statement after the loop, modelled as `none`. -/
def findFirstLoop (entryname : String) :
    List EntryStructure → Nat → Option Nat
  | [], _ => none
  | e :: rest, spot =>
    if e.name = entryname then some spot
    else findFirstLoop entryname rest (spot + 1)

/-- `FindFirstEntryWith`. -/
def FindFirstEntryWith (p : LibMemPak) (entryname : String) : Option Nat :=
  findFirstLoop entryname p.pakEntries 0

/-- `GetValidEntries`: returns the cached counter. -/
def GetValidEntries (p : LibMemPak) : Int := p.pakValidEntries

/-- `GetBlocksFree`: returns the cached free-block count. -/
def GetBlocksFree (p : LibMemPak) : Nat := p.pakBlocksFree

/-- Number of cached records whose valid flag is set. -/
def countValid (l : List EntryStructure) : Nat :=
  (l.filter (fun e => e.valid)).length

/-- The sixteen records one pass of the refresh loop reads off the medium. -/
def freshRecords (m : Medium) : List EntryStructure :=
  (List.range MEMPAK_MAX_ENTRIES).map (fun s => get_mempak_entry m s)

end LibMemPak

/-- A live slot holding one block named "SAVE". -/
def occupiedSlot : Slot :=
  { valid := true, name := "SAVE", blocks := 1, region := 0x45, payload := [] }

/-- An empty (never written) slot. -/
def emptySlot : Slot :=
  { valid := false, name := "", blocks := 0, region := 0, payload := [] }

/-- A present, checksum-valid medium whose slot 0 is occupied and whose other
fifteen slots are empty. -/
def sampleMedium : Medium :=
  { inserted := true, checksumOk := true,
    slots := occupiedSlot :: List.replicate 15 emptySlot, freeBlocks := 121 }

/-- A directory object freshly constructed over `sampleMedium`, with the
indeterminate members taken as 0. -/
def samplePak : LibMemPak := LibMemPak.construct "A" 0 0 0 sampleMedium

/-- A present, checksum-valid medium whose slot 1 is occupied and whose other
fifteen slots are empty. -/
def sampleMedium8 : Medium :=
  { inserted := true, checksumOk := true,
    slots := emptySlot :: occupiedSlot :: List.replicate 14 emptySlot,
    freeBlocks := 100 }

/-- A directory object freshly constructed over `sampleMedium8`. -/
def samplePak8 : LibMemPak := LibMemPak.construct "A" 0 0 0 sampleMedium8

/-- A medium whose slot 0 is an erased slot with the residual name "GHOST". -/
def ghostMedium : Medium :=
  { inserted := true, checksumOk := true,
    slots :=
      { valid := false, name := "GHOST", blocks := 0, region := 0, payload := [] }
        :: List.replicate 15 emptySlot,
    freeBlocks := 123 }

/-- A directory object freshly constructed over `ghostMedium`. -/
def ghostPak : LibMemPak := LibMemPak.construct "A" 0 0 0 ghostMedium

/-- A one-block payload: 256 bytes of value 9. -/
def sampleData : List Nat := List.replicate 256 9

end LibN64

namespace LibN64

open LibMemPak

/-- Effect of one pass of the refresh loop on every field: records are
appended, the valid counter is incremented once per valid record read, and
the other fields are untouched. -/
theorem readLoop_state (m : Medium) : ∀ (l : List Nat) (p : LibMemPak),
    (readLoop m l p).pakEntries
        = p.pakEntries ++ l.map (fun s => get_mempak_entry m s) ∧
    (readLoop m l p).pakValidEntries
        = p.pakValidEntries
            + (countValid (l.map (fun s => get_mempak_entry m s)) : Int) ∧
    (readLoop m l p).pakBlocksFree = p.pakBlocksFree ∧
    (readLoop m l p).pakFileName = p.pakFileName ∧
    (readLoop m l p).pakControllerID = p.pakControllerID := by
  intro l
  induction l with
  | nil => intro p; simp [readLoop, countValid]
  | cons s rest ih =>
    intro p
    obtain ⟨h1, h2, h3, h4, h5⟩ := ih
      { p with
        pakEntries := p.pakEntries ++ [get_mempak_entry m s],
        pakValidEntries :=
          if (get_mempak_entry m s).valid then p.pakValidEntries + 1
          else p.pakValidEntries }
    refine ⟨?_, ?_, ?_, ?_, ?_⟩
    · simp [readLoop, h1]
    · simp only [readLoop, h2, List.map_cons]
      by_cases hv : (get_mempak_entry m s).valid
      · simp only [countValid, List.filter_cons, hv, if_pos, List.length_cons]
        push_cast
        ring
      · simp [countValid, List.filter_cons, hv]
    · simpa [readLoop] using h3
    · simpa [readLoop] using h4
    · simpa [readLoop] using h5

/-- Refresh appends the sixteen freshly read records to the cached vector
(the `empty()` call removes nothing). -/
theorem refresh_pakEntries (p : LibMemPak) (m : Medium) :
    (_ReadPakEntries p m).pakEntries = p.pakEntries ++ freshRecords m := by
  simpa [_ReadPakEntries, freshRecords]
    using (readLoop_state m (List.range MEMPAK_MAX_ENTRIES) p).1

/-- Refresh adds the number of valid records of this pass to the previous
counter value; the counter is never reset. -/
theorem refresh_pakValidEntries (p : LibMemPak) (m : Medium) :
    (_ReadPakEntries p m).pakValidEntries
      = p.pakValidEntries + (countValid (freshRecords m) : Int) := by
  simpa [_ReadPakEntries, freshRecords]
    using (readLoop_state m (List.range MEMPAK_MAX_ENTRIES) p).2.1

/-- C1: the claim says Refresh first clears the cached list so that it always
holds exactly 16 records.  The code calls the const query `empty()` instead of
`clear()`, so every refresh is additive: the length grows by 16 each time.
Concretely, after construction the cache has 16 records, and after one
`DeleteMemPakEntry` (whose refresh the claim covers) it has 32. -/
theorem c1_refresh_is_additive :
    (∀ (p : LibMemPak) (m : Medium),
        (_ReadPakEntries p m).pakEntries.length
          = p.pakEntries.length + MEMPAK_MAX_ENTRIES) ∧
    samplePak.pakEntries.length = 16 ∧
    (DeleteMemPakEntry samplePak sampleMedium 5).map
        (fun r => r.1.pakEntries.length) = some 32 := by
  refine ⟨fun p m => ?_, by decide, by decide⟩
  rw [refresh_pakEntries]
  simp [freshRecords, MEMPAK_MAX_ENTRIES]

/-- C2: the claim says the cached `pakValidEntries` equals the number of
cached valid records after every refresh.  The member is never initialized
(the constructor leaves it indeterminate) and never reset before the loop
increments it, so after the constructor's refresh `GetValidEntries` returns
the indeterminate initial value plus the count.  With initial value 7 over a
medium with one valid slot it returns 8 while exactly one cached record is
valid. -/
theorem c2_validcount_never_reset :
    (∀ (p : LibMemPak) (m : Medium),
        (_ReadPakEntries p m).pakValidEntries
          = p.pakValidEntries + (countValid (freshRecords m) : Int)) ∧
    GetValidEntries (construct "A" 0 7 0 sampleMedium) = 8 ∧
    countValid (construct "A" 0 7 0 sampleMedium).pakEntries = 1 := by
  exact ⟨refresh_pakValidEntries, by decide, by decide⟩

/-- C3: `ReadMemPakEntry` returns a buffer exactly when the pak is inserted,
the pak validates, and the freshly fetched record for the slot is valid; on
any failed precondition it returns the explicit no-data result `none`
(the `nullptr` return), and the function is total, so no exception escapes. -/
theorem c3_read_entry_no_data_iff (m : Medium) (entryID : Nat) :
    (∃ buf, ReadMemPakEntry m entryID = some buf) ↔
      (MemPakInserted m = true ∧ IsValid m = some true ∧
        (get_mempak_entry m entryID).valid = true) := by
  unfold ReadMemPakEntry
  by_cases h : MemPakInserted m = true ∧ IsValid m = some true
  · rw [if_pos h]
    by_cases hv : (get_mempak_entry m entryID).valid = true
    · simp [hv, h.1, h.2]
    · simp [hv]
  · rw [if_neg h]
    refine ⟨fun hb => ?_, fun hc => absurd ⟨hc.1, hc.2.1⟩ h⟩
    obtain ⟨buf, hbuf⟩ := hb
    exact Option.noConfusion hbuf

/-- C4: writing into an occupied slot is a silent skip — when the cached
record at the index is valid, no write reaches the medium (the medium is
returned unchanged, so the slot's directory record and payload are intact)
and no error is signalled (the call does not throw: its result is `some`). -/
theorem c4_write_occupied_no_medium_write (p : LibMemPak) (m : Medium)
    (entryID : Nat) (pakdata : List Nat) (e : EntryStructure)
    (he : p.pakEntries[entryID]? = some e) (hv : e.valid = true) :
    ∃ p1, WriteMemPakEntry p m entryID pakdata = some (p1, m) := by
  refine ⟨p, ?_⟩
  unfold WriteMemPakEntry
  rw [he]
  simp [hv]

/-- Witness for C4 at a concrete input: slot 0 of `samplePak` is occupied. -/
theorem c4_witness :
    ∃ p1, WriteMemPakEntry samplePak sampleMedium 0 [1, 2, 3]
      = some (p1, sampleMedium) :=
  c4_write_occupied_no_medium_write samplePak sampleMedium 0 [1, 2, 3]
    { valid := true, name := "SAVE", blocks := 1, region := 0x45, entry_id := 0 }
    (by decide) (by decide)

/-- C9: the rejection path of `WriteMemPakEntry` is atomic — when the cached
record at the index is valid, the whole object state (cached entries, valid
counter, free-block count) and the medium are exactly as before the call; in
particular no Refresh runs. -/
theorem c9_write_occupied_state_unchanged (p : LibMemPak) (m : Medium)
    (entryID : Nat) (pakdata : List Nat) (e : EntryStructure)
    (he : p.pakEntries[entryID]? = some e) (hv : e.valid = true) :
    WriteMemPakEntry p m entryID pakdata = some (p, m) := by
  unfold WriteMemPakEntry
  rw [he]
  simp [hv]

/-- Witness for C9 at a concrete input: slot 0 of `samplePak` is occupied. -/
theorem c9_witness :
    WriteMemPakEntry samplePak sampleMedium 0 [4] = some (samplePak, sampleMedium) :=
  c9_write_occupied_state_unchanged samplePak sampleMedium 0 [4]
    { valid := true, name := "SAVE", blocks := 1, region := 0x45, entry_id := 0 }
    (by decide) (by decide)

/-- C6: the claim says that after `DeleteMemPakEntry(K)` on a previously valid
slot the cached entry at index K is invalid.  On `samplePak` (slot 0 valid),
deleting slot 0 does erase the medium slot (its valid flag becomes false) and
does run Refresh, but the refresh appends instead of clearing, so the cached
record at index 0 is still the stale pre-delete record with `valid = true`. -/
theorem c6_delete_leaves_stale_cached_record :
    (DeleteMemPakEntry samplePak sampleMedium 0).map
        (fun r => ((r.1.pakEntries[0]?).map (fun e => e.valid),
                   (r.2.slots[0]?).map (fun s => s.valid)))
      = some (some true, some false) := by decide

/-- C8: the claim says an out-of-range slot index raises a bounds violation
and no erase is issued.  After two refreshes the cached vector holds 32
records, so index 17 is inside `at()`'s bounds: the call returns normally
(`some`, no exception) and, because the stale record at index 17 is the valid
record of slot 1, an erase IS issued to the medium — slot 1 ends invalid. -/
theorem c8_out_of_range_not_raised :
    ((DeleteMemPakEntry samplePak8 sampleMedium8 5).bind
        (fun r => DeleteMemPakEntry r.1 r.2 17)).map
      (fun r => (r.2.slots[1]?).map (fun s => s.valid)) = some (some false) := by
  decide

/-- Behaviour of the scan loop of `FindFirstEntryWith`: when position `i`
holds the first record whose name equals the query, the loop started at
`base` returns `base + i`.  No premise mentions any record's valid flag. -/
theorem findFirstLoop_spec (n : String) :
    ∀ (l : List EntryStructure) (i base : Nat) (e : EntryStructure),
      l[i]? = some e → e.name = n →
      (∀ j e1, j < i → l[j]? = some e1 → e1.name ≠ n) →
      findFirstLoop n l base = some (base + i) := by
  intro l
  induction l with
  | nil => intro i base e he; simp at he
  | cons e0 rest ih =>
    intro i base e he hn hfirst
    cases i with
    | zero =>
      simp only [List.getElem?_cons_zero, Option.some.injEq] at he
      subst he
      simp [findFirstLoop, hn]
    | succ i1 =>
      have h0 : e0.name ≠ n := hfirst 0 e0 (Nat.succ_pos _) (by simp)
      have he1 : rest[i1]? = some e := by simpa using he
      have hf1 : ∀ j e1, j < i1 → rest[j]? = some e1 → e1.name ≠ n :=
        fun j e1 hj hje => hfirst (j + 1) e1 (by omega) (by simpa using hje)
      have hrec := ih i1 (base + 1) e he1 hn hf1
      have hstep : findFirstLoop n (e0 :: rest) base = findFirstLoop n rest (base + 1) := by
        simp [findFirstLoop, h0]
      rw [hstep, hrec]
      simp only [Option.some.injEq]
      omega

/-- C10: `FindFirstEntryWith` matches on the name field alone — whenever the
record at position `i` is the first whose name equals the query, the result is
`some i`, with no condition on any valid flag, so a deleted slot whose
residual name matches is returned rather than skipped. -/
theorem c10_find_first_ignores_valid (p : LibMemPak) (n : String) (i : Nat)
    (e : EntryStructure) (he : p.pakEntries[i]? = some e) (hn : e.name = n)
    (hfirst : ∀ j e1, j < i → p.pakEntries[j]? = some e1 → e1.name ≠ n) :
    FindFirstEntryWith p n = some i := by
  have h := findFirstLoop_spec n p.pakEntries i 0 e he hn hfirst
  simpa [FindFirstEntryWith] using h

/-- Witness for C10 at a concrete input: slot 0 of `ghostPak` is an invalid
(deleted) record whose residual name is "GHOST", and the lookup returns it. -/
theorem c10_witness :
    ghostPak.pakEntries[0]?
        = some { valid := false, name := "GHOST", blocks := 0, region := 0,
                 entry_id := 0 } ∧
    FindFirstEntryWith ghostPak "GHOST" = some 0 :=
  ⟨by decide,
   c10_find_first_ignores_valid ghostPak "GHOST" 0
     { valid := false, name := "GHOST", blocks := 0, region := 0, entry_id := 0 }
     (by decide) (by decide) (fun j e1 hj hje => absurd hj (by omega))⟩

/-- Unfolding equation for `WriteAnyMemPakEntry` in terms of its scan loop. -/
theorem writeAny_eq (p : LibMemPak) (m : Medium) (data : List Nat) :
    WriteAnyMemPakEntry p m data =
      (_ReadPakEntries
          { p with pakEntries := (writeAnyLoop p.pakFileName data p.pakEntries m).1 }
          (writeAnyLoop p.pakFileName data p.pakEntries m).2,
       (writeAnyLoop p.pakFileName data p.pakEntries m).2) := rfl

/-- When every cached record is valid, the scan loop of `WriteAnyMemPakEntry`
completes without writing: the records and the medium are returned as they
were. -/
theorem writeAnyLoop_all_valid (fn : String) (data : List Nat) :
    ∀ (l : List EntryStructure) (m : Medium),
      (∀ e ∈ l, e.valid = true) → writeAnyLoop fn data l m = (l, m) := by
  intro l
  induction l with
  | nil => intro m h; rfl
  | cons e rest ih =>
    intro m h
    have he : e.valid = true := h e (by simp)
    have hr := ih m (fun x hx => h x (by simp [hx]))
    simp [writeAnyLoop, he, hr]

/-- When position `i` holds the first record that is not valid, the scan loop
of `WriteAnyMemPakEntry` performs exactly one SDK write — of that record with
the fixed metadata — and mutates exactly that cached record in place. -/
theorem writeAnyLoop_first_invalid (fn : String) (data : List Nat) :
    ∀ (l : List EntryStructure) (i : Nat) (e : EntryStructure) (m : Medium),
      l[i]? = some e → e.valid = false →
      (∀ j e1, j < i → l[j]? = some e1 → e1.valid = true) →
      writeAnyLoop fn data l m =
        (l.take i ++
            ({ e with name := fn, blocks := 1, region := 0x45 } :: l.drop (i + 1)),
         write_mempak_entry_data m
           { e with name := fn, blocks := 1, region := 0x45 } data) := by
  intro l
  induction l with
  | nil => intro i e m he; simp at he
  | cons e0 rest ih =>
    intro i e m he hv hfirst
    cases i with
    | zero =>
      simp only [List.getElem?_cons_zero, Option.some.injEq] at he
      subst he
      simp [writeAnyLoop, hv]
    | succ i1 =>
      have h0 : e0.valid = true := hfirst 0 e0 (Nat.succ_pos _) (by simp)
      have he1 : rest[i1]? = some e := by simpa using he
      have hf1 : ∀ j e1, j < i1 → rest[j]? = some e1 → e1.valid = true :=
        fun j e1 hj hje => hfirst (j + 1) e1 (by omega) (by simpa using hje)
      have hrec := ih i1 e m he1 hv hf1
      simp [writeAnyLoop, h0, hrec]

/-- C5: `WriteAnyMemPakEntry` scans the cached records in slot order.  When
every record is valid it performs no medium write at all and still refreshes.
When position `i` holds the first invalid record, the medium receives exactly
one write — that record with name `pakFileName`, one block and region 0x45 —
every other medium slot is untouched, and the unconditional Refresh then runs
over the written medium. -/
theorem c5_write_any_first_invalid_only (p : LibMemPak) (m : Medium)
    (data : List Nat) :
    ((∀ e ∈ p.pakEntries, e.valid = true) →
        WriteAnyMemPakEntry p m data = (_ReadPakEntries p m, m)) ∧
    (∀ i e, p.pakEntries[i]? = some e → e.valid = false →
        (∀ j e1, j < i → p.pakEntries[j]? = some e1 → e1.valid = true) →
        (WriteAnyMemPakEntry p m data).2 =
            write_mempak_entry_data m
              { e with name := p.pakFileName, blocks := 1, region := 0x45 } data ∧
        (∀ s, s ≠ e.entry_id →
            (WriteAnyMemPakEntry p m data).2.slots[s]? = m.slots[s]?) ∧
        (WriteAnyMemPakEntry p m data).1 =
            _ReadPakEntries
              { p with pakEntries :=
                  p.pakEntries.take i ++
                    ({ e with name := p.pakFileName, blocks := 1, region := 0x45 }
                      :: p.pakEntries.drop (i + 1)) }
              (WriteAnyMemPakEntry p m data).2) := by
  constructor
  · intro hall
    rw [writeAny_eq, writeAnyLoop_all_valid p.pakFileName data p.pakEntries m hall]
  · intro i e he hv hfirst
    have hw := writeAnyLoop_first_invalid p.pakFileName data p.pakEntries i e m
      he hv hfirst
    rw [writeAny_eq, hw]
    refine ⟨rfl, ?_, rfl⟩
    intro s hs
    exact List.getElem?_set_ne (Ne.symm hs)

/-- Witness for C5 at a concrete input: on `samplePak` (slot 0 valid, slot 1
the first invalid record) the medium after `WriteAnyMemPakEntry` is exactly
one SDK write of slot 1's record with the fixed metadata. -/
theorem c5_witness :
    (WriteAnyMemPakEntry samplePak sampleMedium [1, 2, 3]).2 =
      write_mempak_entry_data sampleMedium
        { blankEntry 1 with name := "A", blocks := 1, region := 0x45 }
        [1, 2, 3] :=
  ((c5_write_any_first_invalid_only samplePak sampleMedium [1, 2, 3]).2 1
      (blankEntry 1) (by decide) (by decide)
      (fun j e1 hj hje => by
        have hj0 : j = 0 := by omega
        subst hj0
        have h0 : samplePak.pakEntries[0]?
            = some { valid := true, name := "SAVE", blocks := 1, region := 0x45,
                     entry_id := 0 } := by decide
        rw [h0] at hje
        injection hje with h1
        rw [← h1])).1

/-- C7: round trip.  With the medium present and checksum-valid, for a slot
`K` whose cached record is invalid (empty) and correctly tagged with slot `K`,
writing a one-block payload (`MEMPAK_BLOCK_SIZE` bytes, the declared
`blocks = 1` length) with `WriteMemPakEntry` and then calling
`ReadMemPakEntry K` returns a buffer whose bytes equal the payload. -/
theorem c7_write_read_round_trip (p : LibMemPak) (m : Medium) (K : Nat)
    (data : List Nat) (e : EntryStructure)
    (hins : m.inserted = true) (hok : m.checksumOk = true)
    (hK : K < m.slots.length)
    (he : p.pakEntries[K]? = some e) (hv : e.valid = false) (hid : e.entry_id = K)
    (hlen : data.length = MEMPAK_BLOCK_SIZE) :
    ∃ p1 m1, WriteMemPakEntry p m K data = some (p1, m1) ∧
      ReadMemPakEntry m1 K = some data := by
  have htake : data.take (1 * MEMPAK_BLOCK_SIZE) = data := by
    rw [one_mul, ← hlen, List.take_length]
  refine ⟨_ReadPakEntries p (write_mempak_entry_data m
      { e with name := p.pakFileName, blocks := 1, region := 0x45 } data),
    write_mempak_entry_data m
      { e with name := p.pakFileName, blocks := 1, region := 0x45 } data, ?_, ?_⟩
  · unfold WriteMemPakEntry
    rw [he]
    simp [hv]
  · have hslot :
        (write_mempak_entry_data m
            { e with name := p.pakFileName, blocks := 1, region := 0x45 }
            data).slots[K]?
          = some { valid := true, name := p.pakFileName, blocks := 1,
                   region := 0x45, payload := data } := by
      unfold write_mempak_entry_data
      simp only [hid, htake]
      exact List.getElem?_set_eq_of_lt _ hK
    have hget :
        get_mempak_entry
            (write_mempak_entry_data m
              { e with name := p.pakFileName, blocks := 1, region := 0x45 } data)
            K
          = { valid := true, name := p.pakFileName, blocks := 1, region := 0x45,
              entry_id := K } := by
      unfold get_mempak_entry write_mempak_entry_data
      simp only [hins, if_pos]
      unfold write_mempak_entry_data at hslot
      rw [hslot]
    have hins1 :
        MemPakInserted (write_mempak_entry_data m
          { e with name := p.pakFileName, blocks := 1, region := 0x45 } data)
          = true := by
      simp [MemPakInserted, identify_accessory, write_mempak_entry_data, hins]
    have hval1 :
        IsValid (write_mempak_entry_data m
          { e with name := p.pakFileName, blocks := 1, region := 0x45 } data)
          = some true := by
      unfold IsValid
      rw [if_pos hins1]
      unfold validate_mempak write_mempak_entry_data
      simp [hok]
    unfold ReadMemPakEntry
    rw [if_pos ⟨hins1, hval1⟩, hget]
    simp only [if_pos]
    unfold read_mempak_entry_data
    simp only
    rw [hslot]
    exact congrArg some htake

/-- Witness for C7 at a concrete input: slot 3 of `samplePak` is empty; a
256-byte payload written there is read back unchanged. -/
theorem c7_witness :
    ∃ p1 m1, WriteMemPakEntry samplePak sampleMedium 3 sampleData = some (p1, m1) ∧
      ReadMemPakEntry m1 3 = some sampleData :=
  c7_write_read_round_trip samplePak sampleMedium 3 sampleData (blankEntry 3)
    (by decide) (by decide) (by decide) (by decide) (by decide) (by decide)
    (by simp only [sampleData, List.length_replicate, MEMPAK_BLOCK_SIZE])

end LibN64
